import Mathlib

/-!
Verification of the job-queue / worker-processing core of the task-management
repository: the overdue scanner (`OverdueTasksService.checkOverdueTasks`), the
job dispatcher (`TaskProcessorService.process`) and its two handlers
(`handleStatusUpdate`, `handleOverdueTasks`), and the query helper
(`TasksService.findOverdueTasks`).

The TypeScript source is embedded shallowly: external collaborators (the task
repository, the BullMQ queue, the `updateStatus` call) are passed in as
explicit outcome oracles, asynchronous enqueue calls are recorded as a list of
initiated `EnqueueCall`s, and each JS object literal the code returns becomes a
Lean structure literal with `Option` fields for properties that the code may
leave absent (`undefined`).
-/

/-- A JS `Error` value: only its `message` property is read by the code. -/
structure JsError where
  message : String
deriving DecidableEq, Repr

/-- Return value of `TasksService.updateStatus`: `{ affected: number }`. -/
structure UpdateResult where
  affected : Nat
deriving DecidableEq, Repr

/-- A job payload object. Both payload shapes used by the code
(`{taskId}` and `{taskId, status}`) are objects with (possibly absent)
`taskId` / `status` properties; `none` models an absent or `undefined`
property. -/
structure JobData where
  taskId : Option String := none
  status : Option String := none
deriving DecidableEq, Repr

/-- BullMQ job options as read by the dispatcher: `opts?.attempts`. -/
structure JobOpts where
  attempts : Option Nat := none
deriving DecidableEq, Repr

/-- The fields of a BullMQ `Job` that `TaskProcessorService.process` reads:
`job.name`, `job.data`, `job.attemptsMade`, `job.opts`. -/
structure Job where
  name : String
  data : JobData
  attemptsMade : Nat
  opts : JobOpts
deriving DecidableEq, Repr

/-- One initiated `taskQueue.add(jobType, data)` call. The two call sites
embedded here pass no options argument, recorded as `opts := none`. -/
structure EnqueueCall where
  jobType : String
  data : JobData
  opts : Option JobOpts
deriving DecidableEq, Repr

/-- A task row as stored by the external repository (the fields the core
reads: `id` and `status`). -/
structure TaskRow where
  id : String
  status : String
deriving DecidableEq, Repr

/-- A row returned by `TasksService.findOverdueTasks`. Its declared return
type is `Array<{ status: TaskStatus }>` (the query uses `select: ['status']`),
so the `id` property of a returned row is absent; reading `.id` on it yields
`undefined`, modelled as `none`. -/
structure OverdueRow where
  id : Option String
  status : String
deriving DecidableEq, Repr

/-- Embeds `TasksService.findOverdueTasks(where)`: `tasksRepository.find({ where,
select: ['status'] })`. `matching` is the list of tasks the repository holds
that match the `where` filter; the select clause projects each to its status
column only, leaving `id` absent. -/
def findOverdueTasks (matching : List TaskRow) : List OverdueRow :=
  matching.map fun t => { id := none, status := t.status }

/-- JS truthiness test `!x` for a string-or-undefined value: `undefined` and
`""` are falsy, every other string is truthy. -/
def falsy : Option String → Bool
  | none => true
  | some s => s == ""

/-- Constant `TaskProcessorService.VALID_STATUSES`. -/
def VALID_STATUSES : List String :=
  ["PENDING", "IN_PROGRESS", "COMPLETED", "CANCELLED"]

/-- Constant `TaskProcessorService.MAX_ATTEMPTS` (the local retry budget of
`handleStatusUpdate`). -/
def MAX_ATTEMPTS : Nat := 3

/-- Constant `TaskProcessorService.CHUNK_SIZE`. -/
def CHUNK_SIZE : Nat := 50

/-- Result object of `handleStatusUpdate`: one structure covering its three
return shapes, absent properties as `none`. -/
structure SUResult where
  success : Bool
  error : Option String := none
  taskId : Option UpdateResult := none
  newStatus : Option UpdateResult := none
  detail : Option String := none
deriving DecidableEq, Repr

/-- The `while (attempt < this.MAX_ATTEMPTS)` retry loop of
`handleStatusUpdate`. `upd k` is the outcome of the k-th
`tasksService.updateStatus` call (`k` is 1-based, so `k = calls + 1`);
`remaining = MAX_ATTEMPTS - attempt` counts the loop iterations left,
`calls` the external calls made so far, `lastError` the most recent caught
error. Returns the result object and the total number of external calls. -/
def suLoop (upd : Nat → Except JsError UpdateResult) :
    Nat → Nat → Option JsError → SUResult × Nat
  | 0, calls, lastError =>
      ({ success := false,
         error := some ("Failed to update task status after "
                          ++ toString MAX_ATTEMPTS ++ " attempts"),
         detail := lastError.map JsError.message }, calls)
  | remaining + 1, calls, _lastError =>
      match upd (calls + 1) with
      | .ok updatedTask =>
          ({ success := true, taskId := some updatedTask,
             newStatus := some updatedTask }, calls + 1)
      | .error err => suLoop upd remaining (calls + 1) (some err)

/-- Embeds `TaskProcessorService.handleStatusUpdate`. Destructures
`{ taskId, status } = job.data`, validates, then runs the local retry loop.
The second component counts the `updateStatus` calls actually made (zero on a
validation failure). The `getD ""` in the membership check is only evaluated
when `status` passed the falsiness test, i.e. is `some` of a nonempty
string. -/
def handleStatusUpdate (data : JobData)
    (upd : Nat → Except JsError UpdateResult) : SUResult × Nat :=
  if falsy data.taskId || falsy data.status then
    ({ success := false, error := some "Missing required data" }, 0)
  else if !(VALID_STATUSES.contains (data.status.getD "")) then
    ({ success := false,
       error := some ("Invalid status value: " ++ data.status.getD "") }, 0)
  else
    suLoop upd MAX_ATTEMPTS 0 none

/-- Result object of `handleOverdueTasks`' success paths: `{ success:true,
processed: 0 }` for an empty set, `{ success:true, processed, failed,
message }` otherwise. -/
structure OverdueResult where
  success : Bool
  processed : Nat
  failed : Option Nat := none
  message : Option String := none
deriving DecidableEq, Repr

/-- The chunk slicing of `handleOverdueTasks`' loop
`for (let i = 0; i < overdueTasks.length; i += this.CHUNK_SIZE)`, each
iteration taking `overdueTasks.slice(i, i + this.CHUNK_SIZE)`. `fuel` bounds
the number of loop iterations; `chunks` supplies `rows.length`, an upper
bound because every iteration on a nonempty list consumes at least one
element (`CHUNK_SIZE ≥ 1`), so the `fuel = 0` branch on a nonempty list is
never reached from `chunks`. -/
def chunkLoop (fuel : Nat) (rows : List OverdueRow) : List (List OverdueRow) :=
  match fuel, rows with
  | _, [] => []
  | 0, _ :: _ => []
  | f + 1, r :: rest =>
      (r :: rest).take CHUNK_SIZE :: chunkLoop f ((r :: rest).drop CHUNK_SIZE)

/-- The list of chunks the loop of `handleOverdueTasks` iterates over. -/
def chunks (rows : List OverdueRow) : List (List OverdueRow) :=
  chunkLoop rows.length rows

/-- The `taskQueue.add('task-status-update', { taskId: task.id, status:
task.status })` call initiated for one task of a chunk (no options
argument). -/
def mkChildCall (t : OverdueRow) : EnqueueCall :=
  { jobType := "task-status-update",
    data := { taskId := t.id, status := some t.status }, opts := none }

/-- The per-chunk body of `handleOverdueTasks`' loop, folded over the chunk
list: initiated calls, `successCount`, `failureCount`. Inside the `try` block
the code runs `chunk.map(task => { this.taskQueue.add(...) })` and then
`successCount += chunk.length`. `taskQueue.add` is asynchronous and its
returned promise is not awaited, so a rejected enqueue never surfaces in this
function; nothing in the `try` block can throw synchronously, making the
`catch` branch (`failureCount += chunk.length`) unreachable: `failureCount`
stays 0 and the enqueue outcomes cannot influence the tally. -/
def chunkPass : List (List OverdueRow) → List EnqueueCall × Nat × Nat
  | [] => ([], 0, 0)
  | chunk :: rest =>
      let calls := chunk.map mkChildCall
      let (restCalls, s, f) := chunkPass rest
      (calls ++ restCalls, chunk.length + s, f)

set_option linter.unusedVariables false in
/-- Embeds `TaskProcessorService.handleOverdueTasks`. `query` is the outcome of the
`tasksService.findOverdueTasks({})` call; `enqOk i` is the eventual outcome
(fulfilled / rejected) of the i-th initiated `taskQueue.add` — it is a
parameter of the semantics but, the adds being fire-and-forget, it is never
observed by the function. Returns the handler's result (or the re-raised
query error, `throw err` in the outer `catch`) and the list of initiated
enqueue calls. -/
def handleOverdueTasks (query : Except JsError (List OverdueRow))
    (enqOk : Nat → Bool) : Except JsError OverdueResult × List EnqueueCall :=
  match query with
  | .error e => (.error e, [])
  | .ok overdueTasks =>
      if overdueTasks.isEmpty then
        (.ok { success := true, processed := 0 }, [])
      else
        let (calls, successCount, failureCount) := chunkPass (chunks overdueTasks)
        (.ok { success := true, processed := successCount,
               failed := some failureCount,
               message := some "Overdue tasks have been queued for processing" },
         calls)

/-- The `data` argument of `OverdueTasksService.formatResponse`: either the
empty array `[]` or the object `{ successCount, failCount }`. -/
inductive ScanData where
  | emptyArr
  | counts (successCount failCount : Nat)
deriving DecidableEq, Repr

/-- Return value of `OverdueTasksService.formatResponse`. -/
structure ScannerResponse where
  status : Nat
  success : Bool
  data : ScanData
  message : String
deriving DecidableEq, Repr

/-- Embeds `OverdueTasksService.formatResponse`. The `data ?? []` coalescing never
fires: both call sites pass a non-nullish `data`. -/
def formatResponse (success : Bool) (data : ScanData) (message : String) :
    ScannerResponse :=
  { status := if success then 200 else 500, success := success,
    data := data, message := message }

/-- The `taskQueue.add('overdue-tasks-notification', { taskId: task.id })`
call the scanner initiates for one overdue row (no options argument; the
payload has no `status` property). -/
def mkScanCall (t : OverdueRow) : EnqueueCall :=
  { jobType := "overdue-tasks-notification",
    data := { taskId := t.id }, opts := none }

/-- The `results.forEach` tally of `checkOverdueTasks`, a left fold over the
settled outcomes: a fulfilled enqueue increments `successCount`, a rejected
one increments `failCount`. -/
def tallyAux : Nat × Nat → List Bool → Nat × Nat
  | acc, [] => acc
  | (s, f), ok :: rest =>
      tallyAux (if ok then (s + 1, f) else (s, f + 1)) rest

/-- Embeds `OverdueTasksService.checkOverdueTasks`. `query` is the outcome of the
initial `findOverdueTasks` call; `enqOk i` says whether the enqueue of the
i-th overdue row fulfills or rejects (the `Promise.allSettled` join settles
every outcome independently). The whole body sits in a `try` whose `catch`
returns `formatResponse(false, [], ...)`: the only operation that can throw
is the initial query, every enqueue rejection is absorbed by `allSettled`,
so the function always returns a response (never propagates an exception).
Also returns the list of initiated enqueue calls. -/
def checkOverdueTasks (query : Except JsError (List OverdueRow))
    (enqOk : Nat → Bool) : ScannerResponse × List EnqueueCall :=
  match query with
  | .error _ => (formatResponse false .emptyArr "Error checking overdue tasks", [])
  | .ok overdueTasks =>
      if overdueTasks.isEmpty then
        (formatResponse true .emptyArr "No overdue tasks found", [])
      else
        let results := (List.range overdueTasks.length).map enqOk
        let (successCount, failCount) := tallyAux (0, 0) results
        (formatResponse true (.counts successCount failCount)
           "Overdue tasks check completed",
         overdueTasks.map mkScanCall)

/-- A value stored in the `error` property of a dispatcher result: the
unknown-type branch stores the string `'Unknown job type'`; the final-failure
branch stores the caught error object itself (`error: error || '...'`, and a
caught `Error` object is truthy). -/
inductive ErrorVal where
  | str (s : String)
  | errObj (e : JsError)
deriving DecidableEq, Repr

/-- What `TaskProcessorService.process` returns: a handler result passed
through, or one of its own two literals. -/
inductive ProcessResult where
  | statusUpdate (r : SUResult)
  | overdue (r : OverdueResult)
  | failure (success : Bool) (error : ErrorVal)
deriving DecidableEq, Repr

/-- Outcome of one `process` invocation: a returned value, or an error
re-raised (`throw error`) for the store to retry. -/
inductive ProcessOutcome where
  | returned (r : ProcessResult)
  | rethrown (e : JsError)
deriving DecidableEq, Repr

/-- The `catch` block of `TaskProcessorService.process`:
`attempts = job.attemptsMade ?? 0`, `maxAttempts = job.opts?.attempts ?? 1`;
re-raise while `attempts < maxAttempts - 1`, otherwise return
`{ success:false, error }`. Nat subtraction agrees with the JS comparison:
for `maxAttempts = 0` JS compares `attempts < -1` and Lean `attempts < 0`,
both false. -/
def processCatch (job : Job) (error : JsError) : ProcessOutcome :=
  let attempts := job.attemptsMade
  let maxAttempts := job.opts.attempts.getD 1
  if attempts < maxAttempts - 1 then .rethrown error
  else .returned (.failure false (.errObj error))

/-- Embeds `TaskProcessorService.process`: route by `job.name` over the static
`switch`, run the handler inside `try`, apply the `catch` policy to a raised
error. `handleStatusUpdate` is total (every fallible operation in it is
caught locally), so its branch never reaches the `catch`;
`handleOverdueTasks` re-raises its query error. -/
def process (job : Job) (upd : Nat → Except JsError UpdateResult)
    (query : Except JsError (List OverdueRow)) (enqOk : Nat → Bool) :
    ProcessOutcome × List EnqueueCall :=
  let body : Except JsError ProcessResult × List EnqueueCall :=
    if job.name = "task-status-update" then
      (.ok (.statusUpdate (handleStatusUpdate job.data upd).1), [])
    else if job.name = "overdue-tasks-notification" then
      let (r, calls) := handleOverdueTasks query enqOk
      (r.map .overdue, calls)
    else
      (.ok (.failure false (.str "Unknown job type")), [])
  match body with
  | (.ok r, calls) => (.returned r, calls)
  | (.error e, calls) => (processCatch job e, calls)

/-- Job states of the dispatch state machine (§4.3 of the spec); only the
three outcome states of a dispatch attempt are needed here. -/
inductive JobState where
  | completed
  | retryScheduled
  | failedPermanent
deriving DecidableEq, Repr

/-- The `success` property of a dispatcher result. -/
def ProcessResult.isSuccess : ProcessResult → Bool
  | .statusUpdate r => r.success
  | .overdue r => r.success
  | .failure s _ => s

/-- Modelled from the spec: the job store's reaction to one dispatch attempt
(§4.3; the store, BullMQ, is not part of src/). A re-raised error puts the
job in RETRY_SCHEDULED and it is re-delivered after backoff; a returned
result ends the attempt — COMPLETED on a success result, FAILED_PERMANENT on
a structured failure result. -/
def jobStateAfterAttempt : ProcessOutcome → JobState
  | .rethrown _ => .retryScheduled
  | .returned r => if r.isSuccess then .completed else .failedPermanent

/-- Modelled from the spec: the job store's delivery of a job's n-th
processing attempt (n is 1-based; the store, BullMQ, is not part of src/).
§4.3 has the attempt count increment on dequeue, so the n-th dispatch is the
one numbered n; the job's `attemptsMade` field counts the attempts already
made — and failed — before the current one, so the n-th dispatch carries
`attemptsMade = n - 1`. `optAttempts` is the `attempts` option the job was
enqueued with. -/
def deliveredJob (name : String) (data : JobData) (optAttempts : Option Nat)
    (n : Nat) : Job :=
  { name := name, data := data, attemptsMade := n - 1,
    opts := { attempts := optAttempts } }

/-! ## Helper lemmas -/

/-- Unfolding of the dispatcher's catch policy. -/
theorem processCatch_eq (j : Job) (e : JsError) :
    processCatch j e =
      if j.attemptsMade < j.opts.attempts.getD 1 - 1 then .rethrown e
      else .returned (.failure false (.errObj e)) := rfl

/-- The forEach tally counts the fulfilled and the rejected outcomes. -/
theorem tallyAux_eq (l : List Bool) : ∀ s f, tallyAux (s, f) l
    = (s + l.countP id, f + l.countP fun b => !b) := by
  induction l with
  | nil => intro s f; simp [tallyAux]
  | cons b rest ih =>
      intro s f
      cases b <;> simp [tallyAux, ih, List.countP_cons] <;> omega

/-- The local retry loop makes at most `remaining` further external calls. -/
theorem suLoop_calls_le (upd : Nat → Except JsError UpdateResult) :
    ∀ remaining calls lastError,
      (suLoop upd remaining calls lastError).2 ≤ calls + remaining := by
  intro remaining
  induction remaining with
  | zero => intro calls lastError; simp [suLoop]
  | succ r ih =>
      intro calls lastError
      rw [suLoop]
      cases upd (calls + 1) with
      | ok u => simp
      | error err => simpa using (ih (calls + 1) (some err)).trans (by omega)

/-- Every call the chunk loop initiates is made without an options
argument. -/
theorem chunkPass_opts : ∀ (cs : List (List OverdueRow)) (c : EnqueueCall),
    c ∈ (chunkPass cs).1 → c.opts = none := by
  intro cs
  induction cs with
  | nil => intro c hc; simp [chunkPass] at hc
  | cons chunk rest ih =>
      intro c hc
      rw [chunkPass] at hc
      simp only [List.mem_append, List.mem_map] at hc
      rcases hc with ⟨t, _, rfl⟩ | hc
      · rfl
      · exact ih c hc

/-- The interpolated failure message of the exhausted retry loop. -/
theorem failMsg_eq :
    "Failed to update task status after " ++ toString MAX_ATTEMPTS ++ " attempts"
      = "Failed to update task status after 3 attempts" := by decide

/-- The scanner's non-empty branch, in closed form. -/
theorem checkOverdueTasks_ok_eq (rows : List OverdueRow) (enqOk : Nat → Bool)
    (h : rows.isEmpty = false) :
    checkOverdueTasks (.ok rows) enqOk
      = (formatResponse true
          (.counts (((List.range rows.length).map enqOk).countP id)
                   (((List.range rows.length).map enqOk).countP fun b => !b))
          "Overdue tasks check completed",
         rows.map mkScanCall) := by
  simp only [checkOverdueTasks, h, Bool.false_eq_true, if_false, tallyAux_eq,
    Nat.zero_add]

/-- The overdue handler's non-empty branch, in closed form. -/
theorem handleOverdueTasks_ok_eq (rows : List OverdueRow) (enqOk : Nat → Bool)
    (h : rows.isEmpty = false) :
    handleOverdueTasks (.ok rows) enqOk
      = (.ok { success := true, processed := (chunkPass (chunks rows)).2.1,
               failed := some (chunkPass (chunks rows)).2.2,
               message := some "Overdue tasks have been queued for processing" },
         (chunkPass (chunks rows)).1) := by
  simp only [handleOverdueTasks, h, Bool.false_eq_true, if_false]

/-! ## Claim theorems -/

/-- C1: for a job whose handler raises (in this codebase the
overdue-notification handler re-raising its query error is the one handler
error path; the status-update handler is total, claim C10), delivered for its
n-th attempt with max attempts M: while the attempt count n is strictly below
M the dispatcher re-raises the error and the job becomes RETRY_SCHEDULED
(re-delivered by the store); when n equals M the dispatcher catches the error
and returns the structured `{ success:false, error }` result without
re-raising, and the job becomes FAILED_PERMANENT. -/
theorem dispatcher_retry_boundary (data : JobData)
    (upd : Nat → Except JsError UpdateResult) (enqOk : Nat → Bool)
    (e : JsError) (M n : Nat) (hn : 1 ≤ n) :
    (n < M →
      (process (deliveredJob "overdue-tasks-notification" data (some M) n)
          upd (.error e) enqOk).1 = .rethrown e
      ∧ jobStateAfterAttempt
          (process (deliveredJob "overdue-tasks-notification" data (some M) n)
            upd (.error e) enqOk).1 = .retryScheduled)
    ∧ (n = M →
      (process (deliveredJob "overdue-tasks-notification" data (some M) n)
          upd (.error e) enqOk).1 = .returned (.failure false (.errObj e))
      ∧ jobStateAfterAttempt
          (process (deliveredJob "overdue-tasks-notification" data (some M) n)
            upd (.error e) enqOk).1 = .failedPermanent) := by
  have hp : (process (deliveredJob "overdue-tasks-notification" data (some M) n)
      upd (.error e) enqOk).1
      = processCatch (deliveredJob "overdue-tasks-notification" data (some M) n) e := rfl
  rw [hp, processCatch_eq]
  constructor
  · intro h
    rw [if_pos (show (deliveredJob "overdue-tasks-notification" data (some M) n).attemptsMade
        < (deliveredJob "overdue-tasks-notification" data (some M) n).opts.attempts.getD 1 - 1 by
      simp [deliveredJob]; omega)]
    exact ⟨rfl, rfl⟩
  · intro h
    rw [if_neg (show ¬ ((deliveredJob "overdue-tasks-notification" data (some M) n).attemptsMade
        < (deliveredJob "overdue-tasks-notification" data (some M) n).opts.attempts.getD 1 - 1) by
      simp [deliveredJob]; omega)]
    exact ⟨rfl, rfl⟩

/-- C1 witness: with max attempts 3, a handler error on attempt 2 is
re-raised; on attempt 3 it is caught and returned as a structured failure. -/
theorem dispatcher_retry_boundary_witness :
    ((process (deliveredJob "overdue-tasks-notification" ⟨none, none⟩ (some 3) 2)
        (fun _ => .ok ⟨0⟩) (.error ⟨"boom"⟩) (fun _ => true)).1 = .rethrown ⟨"boom"⟩)
    ∧ ((process (deliveredJob "overdue-tasks-notification" ⟨none, none⟩ (some 3) 3)
        (fun _ => .ok ⟨0⟩) (.error ⟨"boom"⟩) (fun _ => true)).1
        = .returned (.failure false (.errObj ⟨"boom"⟩))) :=
  ⟨((dispatcher_retry_boundary ⟨none, none⟩ (fun _ => .ok ⟨0⟩) (fun _ => true)
      ⟨"boom"⟩ 3 2 (by omega)).1 (by omega)).1,
   ((dispatcher_retry_boundary ⟨none, none⟩ (fun _ => .ok ⟨0⟩) (fun _ => true)
      ⟨"boom"⟩ 3 3 (by omega)).2 rfl).1⟩

/-- C2: a job whose type name is not registered (neither
'task-status-update' nor 'overdue-tasks-notification') gets, on every
attempt — in particular the first — the structured unknown-type failure
returned (FAILED_PERMANENT), nothing enqueued, and the error is never
re-raised, so the store never retries the job. -/
theorem unknown_job_type_terminal (name : String) (data : JobData) (am : Nat)
    (opts : JobOpts) (upd : Nat → Except JsError UpdateResult)
    (query : Except JsError (List OverdueRow)) (enqOk : Nat → Bool)
    (h1 : name ≠ "task-status-update") (h2 : name ≠ "overdue-tasks-notification") :
    process ⟨name, data, am, opts⟩ upd query enqOk
      = (.returned (.failure false (.str "Unknown job type")), [])
    ∧ jobStateAfterAttempt (process ⟨name, data, am, opts⟩ upd query enqOk).1
      = .failedPermanent
    ∧ ∀ e, (process ⟨name, data, am, opts⟩ upd query enqOk).1 ≠ .rethrown e := by
  have h : process ⟨name, data, am, opts⟩ upd query enqOk
      = (.returned (.failure false (.str "Unknown job type")), []) := by
    unfold process
    rw [if_neg h1, if_neg h2]
  refine ⟨h, by rw [h]; rfl, fun e hc => ?_⟩
  rw [h] at hc
  exact ProcessOutcome.noConfusion hc

/-- C2 witness: a job named 'unknown-job' on its first attempt. -/
theorem unknown_job_type_terminal_witness :
    process ⟨"unknown-job", ⟨none, none⟩, 0, ⟨none⟩⟩ (fun _ => .ok ⟨0⟩) (.ok [])
        (fun _ => true)
      = (.returned (.failure false (.str "Unknown job type")), []) :=
  (unknown_job_type_terminal "unknown-job" ⟨none, none⟩ 0 ⟨none⟩ (fun _ => .ok ⟨0⟩)
    (.ok []) (fun _ => true) (by decide) (by decide)).1

/-- C3: evaluation of the overdue-notification handler. The loop slices 120
tasks into ceil(120/50) = 3 chunks of sizes 50, 50, 20 as the claim states;
but the per-chunk enqueue failures are NOT caught or counted: `queue.add` is
fire-and-forget (not awaited), so even when every enqueue of a 1-task overdue
set rejects (`enqOk` constantly false) the handler reports
`processed = 1, failed = 0` — an inaccurate tally — and, as the third
conjunct shows, the result is the same whatever the enqueue outcomes are. -/
theorem overdue_chunk_tally_fire_and_forget :
    ((chunks (List.replicate 120 ⟨none, "PENDING"⟩)).map List.length = [50, 50, 20])
    ∧ (handleOverdueTasks (.ok [⟨none, "PENDING"⟩]) (fun _ => false)
        = (.ok { success := true, processed := 1, failed := some 0,
                 message := some "Overdue tasks have been queued for processing" },
           [⟨"task-status-update", ⟨none, some "PENDING"⟩, none⟩]))
    ∧ (∀ enqOk : Nat → Bool,
        handleOverdueTasks (.ok [⟨none, "PENDING"⟩]) enqOk
          = handleOverdueTasks (.ok [⟨none, "PENDING"⟩]) (fun _ => true)) :=
  ⟨by decide, rfl, fun _ => rfl⟩

/-- C4: for any non-empty overdue set the scanner initiates one enqueue per
task (outcomes settled independently: the initiated-call list does not depend
on the outcomes and has one entry per task), and returns the success response
whose data counts exactly the fulfilled and the rejected enqueues, the two
counts summing to the number of tasks. -/
theorem scanner_settle_all_tally (rows : List OverdueRow) (enqOk : Nat → Bool)
    (h : rows ≠ []) :
    checkOverdueTasks (.ok rows) enqOk
      = (formatResponse true
          (.counts (((List.range rows.length).map enqOk).countP id)
                   (((List.range rows.length).map enqOk).countP fun b => !b))
          "Overdue tasks check completed",
         rows.map mkScanCall)
    ∧ (checkOverdueTasks (.ok rows) enqOk).2.length = rows.length
    ∧ ((List.range rows.length).map enqOk).countP id
        + ((List.range rows.length).map enqOk).countP (fun b => !b)
        = rows.length := by
  have hne : rows.isEmpty = false := by
    cases rows with
    | nil => exact absurd rfl h
    | cons a as => rfl
  have heq := checkOverdueTasks_ok_eq rows enqOk hne
  refine ⟨heq, by rw [heq]; simp, ?_⟩
  have := List.length_eq_countP_add_countP (l := (List.range rows.length).map enqOk) id
  simp at this ⊢
  omega

/-- C4 witness: 3 overdue tasks, the enqueue of the second rejects — the
cycle still succeeds and reports successCount 2, failCount 1. -/
theorem scanner_settle_all_tally_witness :
    (checkOverdueTasks (.ok (List.replicate 3 ⟨none, "PENDING"⟩)) (fun i => i != 1)).1
      = formatResponse true (.counts 2 1) "Overdue tasks check completed" := by
  have h := (scanner_settle_all_tally (List.replicate 3 ⟨none, "PENDING"⟩)
    (fun i => i != 1) (by decide)).1
  rw [h]
  decide

/-- C5: a status-update payload with a missing taskId, a missing status, or a
status outside the fixed enumeration makes the handler return a structured
failure with zero external update attempts (and, being total, without
throwing); for `{ taskId:"x", status:"BOGUS" }` the returned value is exactly
`{ success:false, error:"Invalid status value: BOGUS" }` with zero
attempts. -/
theorem status_update_validation_rejects (data : JobData)
    (upd : Nat → Except JsError UpdateResult)
    (h : data.taskId = none ∨ data.status = none ∨
         ∃ s, data.status = some s ∧ s ∉ VALID_STATUSES) :
    ((handleStatusUpdate data upd).1.success = false
      ∧ (handleStatusUpdate data upd).2 = 0)
    ∧ handleStatusUpdate ⟨some "x", some "BOGUS"⟩ upd
        = ({ success := false, error := some "Invalid status value: BOGUS" }, 0) := by
  refine ⟨?_, rfl⟩
  by_cases hb : (falsy data.taskId || falsy data.status) = true
  · simp [handleStatusUpdate, hb]
  · rcases h with h | h | ⟨s, hs, hmem⟩
    · exact absurd (by simp [falsy, h] : (falsy data.taskId || falsy data.status) = true) hb
    · exact absurd (by simp [falsy, h] : (falsy data.taskId || falsy data.status) = true) hb
    · have hmem' : data.status.getD "" ∉ VALID_STATUSES := by
        rw [hs, Option.getD_some]; exact hmem
      simp [handleStatusUpdate, hb, hmem']

/-- C5 witness: the BOGUS payload at a concrete collaborator. -/
theorem status_update_validation_rejects_witness :
    (handleStatusUpdate ⟨some "x", some "BOGUS"⟩ (fun _ => .ok ⟨1⟩)).1.success = false
    ∧ (handleStatusUpdate ⟨some "x", some "BOGUS"⟩ (fun _ => .ok ⟨1⟩)).2 = 0 :=
  (status_update_validation_rejects ⟨some "x", some "BOGUS"⟩ (fun _ => .ok ⟨1⟩)
    (Or.inr (Or.inr ⟨"BOGUS", rfl, by decide⟩))).1

/-- C6: evaluation of the fan-out payload. The fresh overdue query selects
only the status column (`findOverdueTasks` returns `Array of status-only
rows`), so for a task with id "t1" the handler initiates exactly one
'task-status-update' child enqueue whose payload carries the task's current
status, but whose `taskId` is `undefined` (`none`) — not the task's id "t1"
as the claim states. -/
theorem overdue_fanout_missing_task_id :
    findOverdueTasks [⟨"t1", "PENDING"⟩] = [⟨none, "PENDING"⟩]
    ∧ (handleOverdueTasks (.ok (findOverdueTasks [⟨"t1", "PENDING"⟩])) (fun _ => true)).2
        = [⟨"task-status-update", ⟨none, some "PENDING"⟩, none⟩]
    ∧ ((handleOverdueTasks (.ok (findOverdueTasks [⟨"t1", "PENDING"⟩])) (fun _ => true)).2.map
        (fun c => c.data.taskId) ≠ [some "t1"]) :=
  ⟨rfl, rfl, by decide⟩

/-- C7: the scanner cycle is a total function — it returns a response for
every query outcome and every enqueue behavior, never propagating an
exception to the periodic trigger (every fallible operation of its body sits
inside its try/catch, and the allSettled join absorbs enqueue rejections) —
and when the initial overdue query throws, the returned summary has
`success:false` (status 500) and nothing was enqueued in that cycle. -/
theorem scanner_query_failure_safe (e : JsError) (enqOk : Nat → Bool) :
    checkOverdueTasks (.error e) enqOk
      = (formatResponse false .emptyArr "Error checking overdue tasks", [])
    ∧ (checkOverdueTasks (.error e) enqOk).1.success = false
    ∧ (checkOverdueTasks (.error e) enqOk).1.status = 500
    ∧ (checkOverdueTasks (.error e) enqOk).2 = [] :=
  ⟨rfl, rfl, rfl, rfl⟩

/-- C8: on a valid payload the handler tries the external update up to the
local budget of 3 attempts (independent of the dispatcher: the job's options
play no part), returns the success result right after the first successful
attempt — making no further calls — and when all 3 attempts fail returns the
structured failure whose `detail` is the message of the last (third) error;
the call count never exceeds 3. The loop has no delay construct between
attempts (busy retry); timing itself is outside this embedding. -/
theorem status_update_local_retry (taskId st : String) (hT : taskId ≠ "")
    (hs : st ∈ VALID_STATUSES) (upd : Nat → Except JsError UpdateResult)
    (u : UpdateResult) (e1 e2 e3 : JsError) :
    (upd 1 = .ok u →
      handleStatusUpdate ⟨some taskId, some st⟩ upd
        = ({ success := true, taskId := some u, newStatus := some u }, 1))
    ∧ (upd 1 = .error e1 → upd 2 = .ok u →
      handleStatusUpdate ⟨some taskId, some st⟩ upd
        = ({ success := true, taskId := some u, newStatus := some u }, 2))
    ∧ (upd 1 = .error e1 → upd 2 = .error e2 → upd 3 = .ok u →
      handleStatusUpdate ⟨some taskId, some st⟩ upd
        = ({ success := true, taskId := some u, newStatus := some u }, 3))
    ∧ (upd 1 = .error e1 → upd 2 = .error e2 → upd 3 = .error e3 →
      handleStatusUpdate ⟨some taskId, some st⟩ upd
        = ({ success := false,
             error := some "Failed to update task status after 3 attempts",
             detail := some e3.message }, 3))
    ∧ (handleStatusUpdate ⟨some taskId, some st⟩ upd).2 ≤ 3 := by
  have hst : st ≠ "" := by
    have hs2 := hs
    simp only [VALID_STATUSES, List.mem_cons, List.not_mem_nil, or_false] at hs2
    rcases hs2 with rfl | rfl | rfl | rfl <;> decide
  have hvalid : handleStatusUpdate ⟨some taskId, some st⟩ upd
      = suLoop upd MAX_ATTEMPTS 0 none := by
    simp [handleStatusUpdate, falsy, hT, hst, hs]
  refine ⟨?_, ?_, ?_, ?_, ?_⟩
  · intro h1
    rw [hvalid]
    rw [show MAX_ATTEMPTS = 3 from rfl, suLoop]
    simp [h1]
  · intro h1 h2
    rw [hvalid, show MAX_ATTEMPTS = 3 from rfl, suLoop]
    simp only [Nat.zero_add, h1]
    rw [suLoop]
    simp [h2]
  · intro h1 h2 h3
    rw [hvalid, show MAX_ATTEMPTS = 3 from rfl, suLoop]
    simp only [Nat.zero_add, h1]
    rw [suLoop]
    simp only [h2]
    rw [suLoop]
    simp [h3]
  · intro h1 h2 h3
    rw [hvalid, show MAX_ATTEMPTS = 3 from rfl, suLoop]
    simp only [Nat.zero_add, h1]
    rw [suLoop]
    simp only [h2]
    rw [suLoop]
    simp only [h3]
    rw [suLoop, failMsg_eq]
    rfl
  · rw [hvalid]
    simpa using suLoop_calls_le upd MAX_ATTEMPTS 0 none

/-- C8 witness: a valid payload whose external update always fails — after
exactly 3 attempts the handler reports the failure with the last error's
message as detail. -/
theorem status_update_local_retry_witness :
    handleStatusUpdate ⟨some "x", some "PENDING"⟩ (fun _ => .error ⟨"boom"⟩)
      = ({ success := false,
           error := some "Failed to update task status after 3 attempts",
           detail := some "boom" }, 3) :=
  (status_update_local_retry "x" "PENDING" (by decide) (by decide)
    (fun _ => .error ⟨"boom"⟩) ⟨0⟩ ⟨"boom"⟩ ⟨"boom"⟩ ⟨"boom"⟩).2.2.2.1 rfl rfl rfl

/-- C9: every enqueue the scanner and the overdue-notification handler
initiate passes no options (so no `attempts`), and for any job whose options
carry no `attempts` the dispatcher's catch treats max attempts as 1: a
handler error is returned as the terminal structured failure on every
attempt, never re-raised for store-level retry. -/
theorem default_attempts_single_shot :
    (∀ (query : Except JsError (List OverdueRow)) (enqOk : Nat → Bool)
        (c : EnqueueCall), c ∈ (checkOverdueTasks query enqOk).2 → c.opts = none)
    ∧ (∀ (query : Except JsError (List OverdueRow)) (enqOk : Nat → Bool)
        (c : EnqueueCall), c ∈ (handleOverdueTasks query enqOk).2 → c.opts = none)
    ∧ (∀ (j : Job) (e : JsError), j.opts.attempts = none →
        processCatch j e = .returned (.failure false (.errObj e))) := by
  refine ⟨?_, ?_, ?_⟩
  · intro query enqOk c hc
    match query with
    | .error e => simp [checkOverdueTasks] at hc
    | .ok rows =>
        by_cases hne : rows.isEmpty
        · simp [checkOverdueTasks, hne] at hc
        · rw [Bool.not_eq_true] at hne
          rw [checkOverdueTasks_ok_eq rows enqOk hne] at hc
          simp only [List.mem_map] at hc
          obtain ⟨t, _, rfl⟩ := hc
          rfl
  · intro query enqOk c hc
    match query with
    | .error e => simp [handleOverdueTasks] at hc
    | .ok rows =>
        by_cases hne : rows.isEmpty
        · simp [handleOverdueTasks, hne] at hc
        · rw [Bool.not_eq_true] at hne
          rw [handleOverdueTasks_ok_eq rows enqOk hne] at hc
          exact chunkPass_opts (chunks rows) c hc
  · intro j e h
    rw [processCatch_eq, h]
    rfl

/-- C9 witness: the call the scanner makes for one overdue row carries no
options, and the catch on a job with no attempts option returns the terminal
failure already on the first attempt (attemptsMade 0). -/
theorem default_attempts_single_shot_witness :
    (mkScanCall ⟨none, "PENDING"⟩).opts = none
    ∧ processCatch ⟨"overdue-tasks-notification", ⟨none, none⟩, 0, ⟨none⟩⟩ ⟨"boom"⟩
        = .returned (.failure false (.errObj ⟨"boom"⟩)) :=
  ⟨default_attempts_single_shot.1 (.ok [⟨none, "PENDING"⟩]) (fun _ => true)
      (mkScanCall ⟨none, "PENDING"⟩) (by decide),
   default_attempts_single_shot.2.2 ⟨"overdue-tasks-notification", ⟨none, none⟩, 0, ⟨none⟩⟩
      ⟨"boom"⟩ rfl⟩

/-- C10: for every payload and every behavior of the external updateStatus
collaborator, a 'task-status-update' job returns the (total) handler's result
value through the dispatcher: it never reaches the catch branch, is never
re-raised, and so never consumes store-level retries. -/
theorem status_update_never_rethrown (j : Job)
    (upd : Nat → Except JsError UpdateResult)
    (query : Except JsError (List OverdueRow)) (enqOk : Nat → Bool)
    (hname : j.name = "task-status-update") :
    process j upd query enqOk
      = (.returned (.statusUpdate (handleStatusUpdate j.data upd).1), [])
    ∧ ∀ e, (process j upd query enqOk).1 ≠ .rethrown e := by
  have h : process j upd query enqOk
      = (.returned (.statusUpdate (handleStatusUpdate j.data upd).1), []) := by
    unfold process
    rw [if_pos hname]
  exact ⟨h, fun e hc => by rw [h] at hc; exact ProcessOutcome.noConfusion hc⟩

/-- C10 witness: a status-update job whose external collaborator always
throws still returns a structured result through the dispatcher. -/
theorem status_update_never_rethrown_witness :
    process ⟨"task-status-update", ⟨some "t", some "PENDING"⟩, 0, ⟨none⟩⟩
        (fun _ => .error ⟨"db down"⟩) (.ok []) (fun _ => true)
      = (.returned (.statusUpdate
          ({ success := false,
             error := some "Failed to update task status after 3 attempts",
             detail := some "db down" })), []) := by
  have h := (status_update_never_rethrown
    ⟨"task-status-update", ⟨some "t", some "PENDING"⟩, 0, ⟨none⟩⟩
    (fun _ => .error ⟨"db down"⟩) (.ok []) (fun _ => true) rfl).1
  rw [h]
  decide
